import Mathlib

/-!
# Verification of `ros-geometry.py`

Shallow embedding of the Drake ↔ ROS1 geometry conversion module
(`src/ros-geometry.py`) and proofs of its conversion contracts.

Modelling conventions:
* Floating-point scalars are modelled as exact rationals (`ℚ`); claims stated
  "up to floating-point rounding" become exact equalities in this model.
* The external rotation library (`pydrake.math.RigidTransform`,
  `pydrake.common.eigen_geometry.Quaternion`) is out of scope for the module
  (the module only pipes fields through it).  A `RigidTransform` is modelled
  by its canonical rotation quaternion plus a translation:
  `X.rotation().ToQuaternion().wxyz()` returns the stored quaternion, and the
  `RigidTransform(Quaternion(wxyz), p)` constructor stores both arguments
  unchanged — exactly the fields the module reads and writes.
* ROS message records (`Pose`, `Transform`, `Marker`, `MarkerArray`,
  `TransformStamped`, `TFMessage`) are structures whose fields default to the
  ROS zero-initialised values, as `Marker()` etc. produce in Python.
* Drake's `SceneGraphInspector` / `QueryObject` interface is modelled as a
  record of accessor functions keyed by opaque integer ids, plus the native
  enumeration order `GetAllGeometryIds()` as a list.
* Python `assert False` paths become `Except.error`; iteration that can hit
  them is explicit structural recursion in the `Except` monad.
-/

namespace RosGeometry

/-- A 3-vector of (exact) scalars: positions, translations and scales. -/
structure Vec3 where
  x : ℚ
  y : ℚ
  z : ℚ
deriving DecidableEq, Repr

/-- A quaternion in (w, x, y, z) order — the order used both by
`Quaternion.wxyz()` on the Drake side and by the field writes on the ROS
side of `_write_pose_msg` / `_read_pose_msg`. -/
structure Quat where
  w : ℚ
  x : ℚ
  y : ℚ
  z : ℚ
deriving DecidableEq, Repr

/-- Squared norm of a quaternion; a rotation quaternion is valid when this
equals 1. -/
def Quat.normSq (q : Quat) : ℚ :=
  q.w ^ 2 + q.x ^ 2 + q.y ^ 2 + q.z ^ 2

/-- Drake `RigidTransform`, represented by its canonical rotation quaternion
and its translation — the exact data the module reads
(`X.translation()`, `X.rotation().ToQuaternion().wxyz()`) and writes
(`RigidTransform(Quaternion(wxyz=...), [x, y, z])`). -/
structure RigidTransform where
  rotation_q : Quat
  translation : Vec3
deriving DecidableEq, Repr

/-- ROS `geometry_msgs/Pose`: position + orientation quaternion. -/
structure Pose where
  position : Vec3 := ⟨0, 0, 0⟩
  orientation : Quat := ⟨0, 0, 0, 0⟩
deriving DecidableEq, Repr

/-- ROS `geometry_msgs/Transform`: translation + rotation quaternion. -/
structure Transform where
  translation : Vec3 := ⟨0, 0, 0⟩
  rotation : Quat := ⟨0, 0, 0, 0⟩
deriving DecidableEq, Repr

/-- `_write_pose_msg(X_AB, p, q)`: the (position, quaternion) field pair
written into a message from a transform.  The Python helper mutates the two
sub-messages; here it returns the pair. -/
def write_pose_msg (X_AB : RigidTransform) : Vec3 × Quat :=
  (X_AB.translation, X_AB.rotation_q)

/-- `to_ros_pose(X_AB)`: converts a Drake transform to a ROS pose. -/
def to_ros_pose (X_AB : RigidTransform) : Pose :=
  let pq := write_pose_msg X_AB
  { position := pq.1, orientation := pq.2 }

/-- `to_ros_transform(X_AB)`: converts a Drake transform to a ROS transform. -/
def to_ros_transform (X_AB : RigidTransform) : Transform :=
  let pq := write_pose_msg X_AB
  { translation := pq.1, rotation := pq.2 }

/-- `_read_pose_msg(p, q)`: builds
`RigidTransform(Quaternion(wxyz=[q.w, q.x, q.y, q.z]), [p.x, p.y, p.z])`.
No check or renormalization of the quaternion is performed. -/
def read_pose_msg (p : Vec3) (q : Quat) : RigidTransform :=
  { rotation_q := q, translation := p }

/-- `from_ros_pose(pose)`: converts a ROS pose to a Drake transform. -/
def from_ros_pose (pose : Pose) : RigidTransform :=
  read_pose_msg pose.position pose.orientation

/-- `from_ros_transform(tr)`: converts a ROS transform to a Drake transform. -/
def from_ros_transform (tr : Transform) : RigidTransform :=
  read_pose_msg tr.translation tr.rotation

/-- Drake `Rgba` color: four scalar components read by `.r()`, `.g()`,
`.b()`, `.a()`; the same four components appear in a ROS marker color. -/
structure Rgba where
  r : ℚ
  g : ℚ
  b : ℚ
  a : ℚ
deriving DecidableEq, Repr

/-- `DEFAULT_RGBA = Rgba(0.9, 0.9, 0.9, 1.0)`. -/
def DEFAULT_RGBA : Rgba :=
  ⟨9 / 10, 9 / 10, 9 / 10, 1⟩

/-- Drake `Shape` variants.  The first five are the ones
`to_ros_markers` dispatches on; `Capsule`, `Ellipsoid` and `HalfSpace` are
further Drake shapes that reach the `assert False, "Unsupported type"`
branch (the code's TODO mentions Capsule and Ellipse explicitly). -/
inductive Shape where
  | Box (size : Vec3)
  | Sphere (radius : ℚ)
  | Cylinder (radius : ℚ) (len : ℚ)
  | Mesh (filename : String) (scale : ℚ)
  | Convex (filename : String) (scale : ℚ)
  | Capsule (radius : ℚ) (len : ℚ)
  | Ellipsoid (a : ℚ) (b : ℚ) (c : ℚ)
  | HalfSpace
deriving DecidableEq, Repr

/-- ROS message header: timestamp + frame name. -/
structure Header where
  stamp : ℚ := 0
  frame_id : String := ""
deriving DecidableEq, Repr

/-- ROS `visualization_msgs/Marker`, restricted to the fields this module
writes or that the claims mention.  Defaults are the ROS zero values
produced by `Marker()`. -/
structure Marker where
  header : Header := {}
  id : Int := 0
  type : Nat := 0
  action : Nat := 0
  pose : Pose := {}
  scale : Vec3 := ⟨0, 0, 0⟩
  color : Rgba := ⟨0, 0, 0, 0⟩
  lifetime : ℚ := 0
  frame_locked : Bool := false
  mesh_resource : String := ""
  mesh_use_embedded_materials : Bool := false
deriving DecidableEq, Repr

/-- `Marker.ADD` action constant. -/
def Marker.ADD : Nat := 0

/-- `Marker.CUBE` type constant. -/
def Marker.CUBE : Nat := 1

/-- `Marker.SPHERE` type constant. -/
def Marker.SPHERE : Nat := 2

/-- `Marker.CYLINDER` type constant. -/
def Marker.CYLINDER : Nat := 3

/-- `Marker.MESH_RESOURCE` type constant. -/
def Marker.MESH_RESOURCE : Nat := 10

/-- The `use_color()` closure of `to_ros_markers`: if no color was supplied
substitute `DEFAULT_RGBA`, then write the four components unchanged.  The
Python closure mutates `color_rgba` via `nonlocal`; the pure equivalent
returns the color that gets written. -/
def use_color (color_rgba : Option Rgba) : Rgba :=
  match color_rgba with
  | none => DEFAULT_RGBA
  | some c => c

/-- `to_ros_markers(shape, stamp, frame_name, X_FG, color_rgba)`: converts
one shape + pose + color into a list of markers; the unsupported-shape
branch (`assert False, f"Unsupported type: {shape}"`) becomes an error. -/
def to_ros_markers (shape : Shape) (stamp : ℚ) (frame_name : String)
    (X_FG : RigidTransform) (color_rgba : Option Rgba) :
    Except String (List Marker) :=
  let base : Marker :=
    { header := { stamp := stamp, frame_id := frame_name }
      pose := to_ros_pose X_FG
      action := Marker.ADD
      lifetime := 0
      frame_locked := true }
  match shape with
  | .Box size =>
      .ok [{ base with
              type := Marker.CUBE
              scale := size
              color := use_color color_rgba }]
  | .Sphere radius =>
      .ok [{ base with
              type := Marker.SPHERE
              scale := ⟨radius, radius, radius⟩
              color := use_color color_rgba }]
  | .Cylinder radius len =>
      .ok [{ base with
              type := Marker.CYLINDER
              scale := ⟨radius, radius, len⟩
              color := use_color color_rgba }]
  | .Mesh filename scale =>
      .ok [{ base with
              type := Marker.MESH_RESOURCE
              mesh_resource := "file://" ++ filename
              color := use_color color_rgba
              mesh_use_embedded_materials := true
              scale := ⟨scale, scale, scale⟩ }]
  | .Convex filename scale =>
      .ok [{ base with
              type := Marker.MESH_RESOURCE
              mesh_resource := "file://" ++ filename
              color := use_color color_rgba
              mesh_use_embedded_materials := true
              scale := ⟨scale, scale, scale⟩ }]
  | _ => .error "Unsupported type"

/-- Drake `Role` enumeration (the three roles the module dispatches on). -/
inductive Role where
  | kProximity
  | kIllustration
  | kPerception
deriving DecidableEq, Repr

/-- A role-specific geometry property bag, restricted to the one property
this module reads: `HasProperty("phong", "diffuse")` is `diffuse.isSome`,
`GetProperty("phong", "diffuse")` is its value. -/
structure GeometryProperties where
  diffuse : Option Rgba

/-- Drake `SceneGraphInspector`: the native enumeration order of
`GetAllGeometryIds()` plus the per-id accessors the module calls.
Geometry ids and frame ids are opaque; both are modelled as `Nat`. -/
structure SceneGraphInspector where
  geometryIds : List Nat
  getShape : Nat → Shape
  getFrameId : Nat → Nat
  getPoseInFrame : Nat → RigidTransform
  getNameGeometry : Nat → String
  getNameFrame : Nat → String
  getProximityProperties : Nat → Option GeometryProperties
  getIllustrationProperties : Nat → Option GeometryProperties
  getPerceptionProperties : Nat → Option GeometryProperties

/-- Drake `QueryObject`: its inspector plus the world pose `X_WF(frame_id)`
of each frame. -/
structure QueryObject where
  inspector : SceneGraphInspector
  X_WF : Nat → RigidTransform

/-- `get_role_properties(inspector, role, geometry_id)`: dynamic role
dispatch to the matching property getter. -/
def get_role_properties (inspector : SceneGraphInspector) (role : Role)
    (geometry_id : Nat) : Option GeometryProperties :=
  match role with
  | .kProximity => inspector.getProximityProperties geometry_id
  | .kIllustration => inspector.getIllustrationProperties geometry_id
  | .kPerception => inspector.getPerceptionProperties geometry_id

/-- `sanity_check_query_object(query_object)`: builds the four sets of
frame ids, frame names, geometry ids and geometry names over all
geometries and asserts the two cardinality equalities.  `true` means both
asserts pass; `false` means the `DuplicateNameError` assertion fires.
Python `set`s of the traversed values are modelled as `List.dedup` of the
traversal lists (same cardinalities). -/
def sanity_check_query_object (query_object : QueryObject) : Bool :=
  let inspector := query_object.inspector
  let gids := inspector.geometryIds
  let frame_ids := (gids.map inspector.getFrameId).dedup
  let frame_names :=
    (gids.map (fun g => inspector.getNameFrame (inspector.getFrameId g))).dedup
  let geometry_ids := gids.dedup
  let geometry_names := (gids.map inspector.getNameGeometry).dedup
  frame_ids.length == frame_names.length &&
    geometry_ids.length == geometry_names.length

/-- ROS `visualization_msgs/MarkerArray`. -/
structure MarkerArray where
  markers : List Marker
deriving DecidableEq, Repr

/-- The geometry loop of `to_ros_marker_array`: walks the geometry ids in
enumeration order, skips a geometry whose role properties are absent,
resolves the optional "phong"/"diffuse" color, converts via
`to_ros_markers` and concatenates; an unsupported shape aborts the whole
loop with the error. -/
def markersForGeometryIds (inspector : SceneGraphInspector) (role : Role)
    (stamp : ℚ) : List Nat → Except String (List Marker)
  | [] => .ok []
  | geometry_id :: rest =>
    match get_role_properties inspector role geometry_id with
    | none => markersForGeometryIds inspector role stamp rest
    | some properties =>
      let color_rgba : Option Rgba :=
        if properties.diffuse.isSome then properties.diffuse else none
      match to_ros_markers (inspector.getShape geometry_id) stamp
          (inspector.getNameFrame (inspector.getFrameId geometry_id))
          (inspector.getPoseInFrame geometry_id) color_rgba with
      | .error e => .error e
      | .ok ms =>
        match markersForGeometryIds inspector role stamp rest with
        | .error e => .error e
        | .ok msRest => .ok (ms ++ msRest)

/-- The id-reassignment loop of `to_ros_marker_array`:
`for i, marker in enumerate(markers): marker.id = i`, starting at `i`. -/
def assignIdsFrom : Nat → List Marker → List Marker
  | _, [] => []
  | i, m :: rest => { m with id := (i : Int) } :: assignIdsFrom (i + 1) rest

/-- `to_ros_marker_array(query_object, role, stamp)`: the geometry loop
followed by the id reassignment ensuring unique ids. -/
def to_ros_marker_array (query_object : QueryObject) (role : Role)
    (stamp : ℚ) : Except String MarkerArray :=
  match markersForGeometryIds query_object.inspector role stamp
      query_object.inspector.geometryIds with
  | .error e => .error e
  | .ok ms => .ok ⟨assignIdsFrom 0 ms⟩

/-- ROS `geometry_msgs/TransformStamped`. -/
structure TransformStamped where
  header : Header := {}
  child_frame_id : String := ""
  transform : Transform := {}
deriving DecidableEq, Repr

/-- ROS `tf2_msgs/TFMessage`. -/
structure TFMessage where
  transforms : List TransformStamped
deriving DecidableEq, Repr

/-- `to_ros_tf_message(query_object, stamp)`: collects the distinct frame
ids referenced by any geometry (`set`), sorts them
(`sorted(list(frame_ids))`, modelled as an insertion sort of the
deduplicated list), and emits one world→frame `TransformStamped` per
frame. -/
def to_ros_tf_message (query_object : QueryObject) (stamp : ℚ) : TFMessage :=
  let inspector := query_object.inspector
  let frame_ids :=
    List.insertionSort (· ≤ ·)
      (inspector.geometryIds.map inspector.getFrameId).dedup
  { transforms := frame_ids.map (fun frame_id =>
      { header := { stamp := stamp, frame_id := "world" }
        child_frame_id := inspector.getNameFrame frame_id
        transform := to_ros_transform (query_object.X_WF frame_id) }) }

/-- The set of shape variants `to_ros_markers` supports (the five
dispatch branches); every other variant reaches the `assert False`. -/
def isSupportedShape : Shape → Bool
  | .Box _ => true
  | .Sphere _ => true
  | .Cylinder _ _ => true
  | .Mesh _ _ => true
  | .Convex _ _ => true
  | _ => false

end RosGeometry

namespace RosGeometry

/-- An example valid transform shared by the concrete witnesses. -/
def exampleTransform : RigidTransform :=
  ⟨⟨1, 0, 0, 0⟩, ⟨0, 0, 0⟩⟩

/-- `use_color` resolves an optional color to the default when absent and
to the supplied color unchanged otherwise. -/
theorem use_color_eq (color_rgba : Option Rgba) :
    use_color color_rgba = color_rgba.getD DEFAULT_RGBA := by
  cases color_rgba <;> rfl

/-- C1: for every valid rigid transform `X` (unit rotation quaternion),
`from_ros_pose (to_ros_pose X) = X` and
`from_ros_transform (to_ros_transform X) = X`, exactly in the rational
model (hence up to floating-point rounding in the implementation). -/
theorem from_to_ros_pose_round_trip (X : RigidTransform)
    (h : X.rotation_q.normSq = 1) :
    from_ros_pose (to_ros_pose X) = X ∧
      from_ros_transform (to_ros_transform X) = X :=
  ⟨rfl, rfl⟩

/-- Witness for C1 at a concrete unit-quaternion transform. -/
theorem from_to_ros_pose_round_trip_witness :
    Quat.normSq ⟨3 / 5, 4 / 5, 0, 0⟩ = 1 ∧
      (from_ros_pose (to_ros_pose ⟨⟨3 / 5, 4 / 5, 0, 0⟩, ⟨1, 2, 3⟩⟩) =
          ⟨⟨3 / 5, 4 / 5, 0, 0⟩, ⟨1, 2, 3⟩⟩ ∧
        from_ros_transform (to_ros_transform ⟨⟨3 / 5, 4 / 5, 0, 0⟩, ⟨1, 2, 3⟩⟩) =
          ⟨⟨3 / 5, 4 / 5, 0, 0⟩, ⟨1, 2, 3⟩⟩) :=
  ⟨by norm_num [Quat.normSq], from_to_ros_pose_round_trip ⟨⟨3 / 5, 4 / 5, 0, 0⟩, ⟨1, 2, 3⟩⟩
    (by norm_num [Quat.normSq])⟩

/-- C2: `from_ros_pose` and `from_ros_transform` construct the transform
from the stored (w,x,y,z) quaternion as-is: even on a non-unit quaternion
no error is raised (the functions are total) and the resulting transform
carries exactly the message's quaternion and translation. -/
theorem from_ros_no_renormalization (pm : Pose) (tm : Transform)
    (hp : pm.orientation.normSq ≠ 1) (ht : tm.rotation.normSq ≠ 1) :
    (from_ros_pose pm).rotation_q = pm.orientation ∧
      (from_ros_pose pm).translation = pm.position ∧
      (from_ros_transform tm).rotation_q = tm.rotation ∧
      (from_ros_transform tm).translation = tm.translation :=
  ⟨rfl, rfl, rfl, rfl⟩

/-- Witness for C2 at concrete non-unit quaternions. -/
theorem from_ros_no_renormalization_witness :
    Quat.normSq ⟨2, 0, 0, 0⟩ ≠ 1 ∧ Quat.normSq ⟨0, 0, 0, 0⟩ ≠ 1 ∧
      ((from_ros_pose ⟨⟨5, 6, 7⟩, ⟨2, 0, 0, 0⟩⟩).rotation_q = ⟨2, 0, 0, 0⟩ ∧
        (from_ros_pose ⟨⟨5, 6, 7⟩, ⟨2, 0, 0, 0⟩⟩).translation = ⟨5, 6, 7⟩ ∧
        (from_ros_transform ⟨⟨8, 9, 10⟩, ⟨0, 0, 0, 0⟩⟩).rotation_q = ⟨0, 0, 0, 0⟩ ∧
        (from_ros_transform ⟨⟨8, 9, 10⟩, ⟨0, 0, 0, 0⟩⟩).translation = ⟨8, 9, 10⟩) :=
  ⟨by norm_num [Quat.normSq], by norm_num [Quat.normSq],
    from_ros_no_renormalization ⟨⟨5, 6, 7⟩, ⟨2, 0, 0, 0⟩⟩ ⟨⟨8, 9, 10⟩, ⟨0, 0, 0, 0⟩⟩
      (by norm_num [Quat.normSq]) (by norm_num [Quat.normSq])⟩

/-- C6: the shape dispatch of `to_ros_markers`: Box ↦ CUBE with the box's
size as scale; Sphere r ↦ SPHERE with scale (r,r,r); Cylinder r l ↦
CYLINDER with scale (r,r,l); Mesh/Convex ↦ MESH_RESOURCE with resource
path `file://` ++ filename, the uniform scale on all three axes, and
embedded materials enabled. -/
theorem to_ros_markers_shape_dispatch (stamp : ℚ) (frame_name : String)
    (X_FG : RigidTransform) (color_rgba : Option Rgba) :
    (∀ size, ∃ m,
      to_ros_markers (Shape.Box size) stamp frame_name X_FG color_rgba = .ok [m] ∧
        m.type = Marker.CUBE ∧ m.scale = size) ∧
    (∀ radius, ∃ m,
      to_ros_markers (Shape.Sphere radius) stamp frame_name X_FG color_rgba = .ok [m] ∧
        m.type = Marker.SPHERE ∧ m.scale = ⟨radius, radius, radius⟩) ∧
    (∀ radius len, ∃ m,
      to_ros_markers (Shape.Cylinder radius len) stamp frame_name X_FG color_rgba = .ok [m] ∧
        m.type = Marker.CYLINDER ∧ m.scale = ⟨radius, radius, len⟩) ∧
    (∀ filename scale, ∃ m,
      to_ros_markers (Shape.Mesh filename scale) stamp frame_name X_FG color_rgba = .ok [m] ∧
        m.type = Marker.MESH_RESOURCE ∧ m.mesh_resource = "file://" ++ filename ∧
        m.scale = ⟨scale, scale, scale⟩ ∧ m.mesh_use_embedded_materials = true) ∧
    (∀ filename scale, ∃ m,
      to_ros_markers (Shape.Convex filename scale) stamp frame_name X_FG color_rgba = .ok [m] ∧
        m.type = Marker.MESH_RESOURCE ∧ m.mesh_resource = "file://" ++ filename ∧
        m.scale = ⟨scale, scale, scale⟩ ∧ m.mesh_use_embedded_materials = true) :=
  ⟨fun _ => ⟨_, rfl, rfl, rfl⟩,
   fun _ => ⟨_, rfl, rfl, rfl⟩,
   fun _ _ => ⟨_, rfl, rfl, rfl⟩,
   fun _ _ => ⟨_, rfl, rfl, rfl, rfl, rfl⟩,
   fun _ _ => ⟨_, rfl, rfl, rfl, rfl, rfl⟩⟩

/-- C8: every marker produced by `to_ros_markers` carries action ADD,
lifetime 0, frame-locked true, the supplied frame name in its header, and
pose `to_ros_pose X_FG`. -/
theorem to_ros_markers_invariants (shape : Shape) (stamp : ℚ)
    (frame_name : String) (X_FG : RigidTransform) (color_rgba : Option Rgba)
    (ms : List Marker)
    (h : to_ros_markers shape stamp frame_name X_FG color_rgba = .ok ms) :
    ∀ m ∈ ms, m.action = Marker.ADD ∧ m.lifetime = 0 ∧
      m.frame_locked = true ∧ m.header.frame_id = frame_name ∧
      m.pose = to_ros_pose X_FG := by
  cases shape <;> simp only [to_ros_markers, Except.ok.injEq] at h <;>
    first
      | (subst h; intro m hm; rw [List.mem_singleton] at hm; subst hm;
         exact ⟨rfl, rfl, rfl, rfl, rfl⟩)
      | exact Except.noConfusion h

/-- Witness for C8 at a concrete box geometry. -/
theorem to_ros_markers_invariants_witness :
    (∃ ms, to_ros_markers (Shape.Box ⟨1, 2, 3⟩) 7 "frameA" exampleTransform none = .ok ms ∧
      ∀ m ∈ ms, m.action = Marker.ADD ∧ m.lifetime = 0 ∧
        m.frame_locked = true ∧ m.header.frame_id = "frameA" ∧
        m.pose = to_ros_pose exampleTransform) :=
  ⟨_, rfl, to_ros_markers_invariants (Shape.Box ⟨1, 2, 3⟩) 7 "frameA"
      exampleTransform none _ rfl⟩

/-- C9: the marker color is the supplied RGBA unchanged when present, and
exactly (0.9, 0.9, 0.9, 1.0) when absent. -/
theorem to_ros_markers_color_resolution (shape : Shape) (stamp : ℚ)
    (frame_name : String) (X_FG : RigidTransform) (color_rgba : Option Rgba)
    (ms : List Marker)
    (h : to_ros_markers shape stamp frame_name X_FG color_rgba = .ok ms) :
    ∀ m ∈ ms, m.color = color_rgba.getD ⟨9 / 10, 9 / 10, 9 / 10, 1⟩ := by
  cases shape <;> simp only [to_ros_markers, Except.ok.injEq] at h <;>
    first
      | (subst h; intro m hm; rw [List.mem_singleton] at hm; subst hm;
         rw [show Marker.color _ = use_color color_rgba from rfl, use_color_eq]; rfl)
      | exact Except.noConfusion h

/-- Witness for C9 at a concrete sphere with no color supplied. -/
theorem to_ros_markers_color_resolution_witness :
    (∃ ms, to_ros_markers (Shape.Sphere 2) 0 "frameB" exampleTransform none = .ok ms ∧
      ∀ m ∈ ms, m.color = Option.getD none ⟨9 / 10, 9 / 10, 9 / 10, 1⟩) :=
  ⟨_, rfl, to_ros_markers_color_resolution (Shape.Sphere 2) 0 "frameB"
      exampleTransform none _ rfl⟩

/-- C10: on every supported shape variant, `to_ros_markers` returns a
sequence of length exactly one. -/
theorem to_ros_markers_single_marker (shape : Shape) (stamp : ℚ)
    (frame_name : String) (X_FG : RigidTransform) (color_rgba : Option Rgba)
    (h : isSupportedShape shape = true) :
    (to_ros_markers shape stamp frame_name X_FG color_rgba).map List.length =
      .ok 1 := by
  cases shape <;> first | rfl | simp [isSupportedShape] at h

/-- Witness for C10 at a concrete cylinder. -/
theorem to_ros_markers_single_marker_witness :
    isSupportedShape (Shape.Cylinder 1 4) = true ∧
      (to_ros_markers (Shape.Cylinder 1 4) 0 "frameC" exampleTransform
          none).map List.length = .ok 1 :=
  ⟨rfl, to_ros_markers_single_marker (Shape.Cylinder 1 4) 0 "frameC"
      exampleTransform none rfl⟩

end RosGeometry

namespace RosGeometry

/-- Every successful `to_ros_markers` call returns exactly one marker. -/
theorem to_ros_markers_ok_length (shape : Shape) (stamp : ℚ)
    (frame_name : String) (X_FG : RigidTransform) (color_rgba : Option Rgba)
    (ms : List Marker)
    (h : to_ros_markers shape stamp frame_name X_FG color_rgba = .ok ms) :
    ms.length = 1 := by
  cases shape <;> simp only [to_ros_markers, Except.ok.injEq] at h <;>
    first
      | (subst h; rfl)
      | exact Except.noConfusion h

/-- On success, the geometry loop emits one marker per geometry whose
role properties are present. -/
theorem markersForGeometryIds_length (inspector : SceneGraphInspector)
    (role : Role) (stamp : ℚ) (l : List Nat) (ms : List Marker)
    (h : markersForGeometryIds inspector role stamp l = .ok ms) :
    ms.length =
      (l.filter (fun g => (get_role_properties inspector role g).isSome)).length := by
  induction l generalizing ms with
  | nil =>
    simp only [markersForGeometryIds, Except.ok.injEq] at h
    subst h
    rfl
  | cons g rest ih =>
    simp only [markersForGeometryIds] at h
    split at h
    next hp =>
      rw [List.filter_cons_of_neg (by simp [hp])]
      exact ih ms h
    next properties hp =>
      split at h
      next e hm => exact Except.noConfusion h
      next ms1 hm =>
        split at h
        next e hr => exact Except.noConfusion h
        next msRest hr =>
          simp only [Except.ok.injEq] at h
          subst h
          rw [List.filter_cons_of_pos (by simp [hp]), List.length_append,
            List.length_cons, to_ros_markers_ok_length _ _ _ _ _ _ hm,
            ih msRest hr]
          omega

/-- The id-reassignment loop writes consecutive ids starting at `i`. -/
theorem assignIdsFrom_map_id (i : Nat) (ms : List Marker) :
    (assignIdsFrom i ms).map Marker.id = (List.range' i ms.length).map Int.ofNat := by
  induction ms generalizing i with
  | nil => rfl
  | cons m rest ih =>
    simp only [assignIdsFrom, List.length_cons, List.range', List.map_cons, ih]
    rfl

/-- C3: when `to_ros_marker_array` succeeds, its markers carry ids exactly
0, 1, ..., N-1 in order — no duplicates, regardless of any id set earlier —
where N is the number of geometries possessing the requested role
(geometries with an absent role-property set emit no marker). -/
theorem to_ros_marker_array_ids (query_object : QueryObject) (role : Role)
    (stamp : ℚ) (arr : MarkerArray)
    (h : to_ros_marker_array query_object role stamp = .ok arr) :
    arr.markers.map Marker.id =
      (List.range ((query_object.inspector.geometryIds.filter
        (fun g => (get_role_properties query_object.inspector role g).isSome)).length)).map
        Int.ofNat := by
  simp only [to_ros_marker_array] at h
  split at h
  next e he => exact Except.noConfusion h
  next ms hms =>
    simp only [Except.ok.injEq] at h
    subst h
    rw [List.range_eq_range', ← markersForGeometryIds_length _ _ _ _ _ hms]
    exact assignIdsFrom_map_id 0 ms

/-- A concrete two-geometry scene: geometry 10 has proximity properties,
geometry 11 has none; both live on frame 0. -/
def exampleInspector : SceneGraphInspector where
  geometryIds := [10, 11]
  getShape := fun _ => Shape.Box ⟨1, 2, 3⟩
  getFrameId := fun _ => 0
  getPoseInFrame := fun _ => exampleTransform
  getNameGeometry := fun g => if g == 10 then "geomA" else "geomB"
  getNameFrame := fun _ => "frame0"
  getProximityProperties := fun g => if g == 10 then some ⟨none⟩ else none
  getIllustrationProperties := fun _ => none
  getPerceptionProperties := fun _ => none

/-- The query object over `exampleInspector`. -/
def exampleQO : QueryObject where
  inspector := exampleInspector
  X_WF := fun _ => exampleTransform

/-- Witness for C3 on the concrete two-geometry scene. -/
theorem to_ros_marker_array_ids_witness :
    (∃ arr, to_ros_marker_array exampleQO Role.kProximity 0 = .ok arr ∧
      arr.markers.map Marker.id =
        (List.range ((exampleQO.inspector.geometryIds.filter
          (fun g => (get_role_properties exampleQO.inspector Role.kProximity g).isSome)).length)).map
          Int.ofNat) :=
  ⟨_, rfl, to_ros_marker_array_ids exampleQO Role.kProximity 0 _ rfl⟩

/-- `to_ros_markers` fails with the unsupported-shape error on every shape
variant outside the five supported ones. -/
theorem to_ros_markers_unsupported_error (shape : Shape) (stamp : ℚ)
    (frame_name : String) (X_FG : RigidTransform) (color_rgba : Option Rgba)
    (h : isSupportedShape shape = false) :
    to_ros_markers shape stamp frame_name X_FG color_rgba =
      .error "Unsupported type" := by
  cases shape <;> first | rfl | simp [isSupportedShape] at h

/-- The only error `to_ros_markers` ever produces is the unsupported-shape
error. -/
theorem to_ros_markers_error_eq (shape : Shape) (stamp : ℚ)
    (frame_name : String) (X_FG : RigidTransform) (color_rgba : Option Rgba)
    (e : String)
    (h : to_ros_markers shape stamp frame_name X_FG color_rgba = .error e) :
    e = "Unsupported type" := by
  cases shape <;> simp only [to_ros_markers, Except.error.injEq] at h <;>
    first | (exact h.symm) | exact Except.noConfusion h

/-- An unsupported shape on any role-bearing geometry aborts the whole
geometry loop with the unsupported-shape error. -/
theorem markersForGeometryIds_error_of_unsupported
    (inspector : SceneGraphInspector) (role : Role) (stamp : ℚ)
    (l : List Nat) (g : Nat) (hg : g ∈ l)
    (hrole : (get_role_properties inspector role g).isSome = true)
    (hshape : isSupportedShape (inspector.getShape g) = false) :
    markersForGeometryIds inspector role stamp l = .error "Unsupported type" := by
  induction l with
  | nil => cases hg
  | cons a rest ih =>
    rcases List.mem_cons.mp hg with hga | hgr
    · subst hga
      simp only [markersForGeometryIds]
      split
      next hp => rw [hp] at hrole; exact Bool.noConfusion hrole
      next properties hp =>
        rw [to_ros_markers_unsupported_error _ _ _ _ _ hshape]
    · simp only [markersForGeometryIds]
      split
      next hp => exact ih hgr
      next properties hp =>
        split
        next e hm =>
          rw [to_ros_markers_error_eq _ _ _ _ _ _ hm]
        next ms1 hm =>
          rw [ih hgr]

end RosGeometry

namespace RosGeometry

/-- C7: a shape variant outside {Box, Sphere, Cylinder, Mesh, Convex}
makes `to_ros_markers` fail with the unsupported-shape error (never an
empty or malformed marker list), and inside `to_ros_marker_array` a
geometry bearing the requested role with such a shape aborts the whole
enumeration with that error. -/
theorem to_ros_markers_unsupported_aborts (shape : Shape) (stamp : ℚ)
    (frame_name : String) (X_FG : RigidTransform) (color_rgba : Option Rgba)
    (query_object : QueryObject) (role : Role) (g : Nat)
    (hshape : isSupportedShape shape = false)
    (hg : g ∈ query_object.inspector.geometryIds)
    (hrole : (get_role_properties query_object.inspector role g).isSome = true)
    (hgs : query_object.inspector.getShape g = shape) :
    to_ros_markers shape stamp frame_name X_FG color_rgba =
        .error "Unsupported type" ∧
      to_ros_marker_array query_object role stamp = .error "Unsupported type" := by
  refine ⟨to_ros_markers_unsupported_error _ _ _ _ _ hshape, ?_⟩
  have hs : isSupportedShape (query_object.inspector.getShape g) = false := by
    rw [hgs]; exact hshape
  have habort := markersForGeometryIds_error_of_unsupported query_object.inspector
    role stamp query_object.inspector.geometryIds g hg hrole hs
  simp only [to_ros_marker_array]
  rw [habort]

/-- A concrete one-geometry scene whose geometry has a Capsule shape —
unsupported by the marker codec — and proximity-role properties. -/
def exampleUnsupportedInspector : SceneGraphInspector where
  geometryIds := [5]
  getShape := fun _ => Shape.Capsule 1 2
  getFrameId := fun _ => 0
  getPoseInFrame := fun _ => exampleTransform
  getNameGeometry := fun _ => "geomC"
  getNameFrame := fun _ => "frame0"
  getProximityProperties := fun _ => some ⟨none⟩
  getIllustrationProperties := fun _ => none
  getPerceptionProperties := fun _ => none

/-- The query object over `exampleUnsupportedInspector`. -/
def exampleUnsupportedQO : QueryObject where
  inspector := exampleUnsupportedInspector
  X_WF := fun _ => exampleTransform

/-- Witness for C7 on the concrete capsule scene. -/
theorem to_ros_markers_unsupported_aborts_witness :
    (isSupportedShape (Shape.Capsule 1 2) = false ∧
      5 ∈ exampleUnsupportedQO.inspector.geometryIds ∧
      (get_role_properties exampleUnsupportedQO.inspector Role.kProximity 5).isSome = true ∧
      exampleUnsupportedQO.inspector.getShape 5 = Shape.Capsule 1 2) ∧
      (to_ros_markers (Shape.Capsule 1 2) 0 "frame0" exampleTransform none =
          .error "Unsupported type" ∧
        to_ros_marker_array exampleUnsupportedQO Role.kProximity 0 =
          .error "Unsupported type") :=
  ⟨⟨rfl, List.mem_singleton.mpr rfl, rfl, rfl⟩,
    to_ros_markers_unsupported_aborts (Shape.Capsule 1 2) 0 "frame0" exampleTransform
      none exampleUnsupportedQO Role.kProximity 5 rfl (List.mem_singleton.mpr rfl)
      rfl rfl⟩

/-- C4: `to_ros_tf_message` emits, in ascending frame-id order and with no
duplicates, exactly one TransformStamped per distinct frame referenced by
any geometry, each with parent frame "world", child the resolved frame
name, and transform `to_ros_transform` of the frame's world pose. -/
theorem to_ros_tf_message_spec (query_object : QueryObject) (stamp : ℚ) :
    ∃ frame_ids : List Nat,
      frame_ids.Sorted (· ≤ ·) ∧ frame_ids.Nodup ∧
      (∀ f, f ∈ frame_ids ↔ ∃ g ∈ query_object.inspector.geometryIds,
          query_object.inspector.getFrameId g = f) ∧
      (to_ros_tf_message query_object stamp).transforms =
        frame_ids.map (fun frame_id =>
          { header := { stamp := stamp, frame_id := "world" }
            child_frame_id := query_object.inspector.getNameFrame frame_id
            transform := to_ros_transform (query_object.X_WF frame_id) }) := by
  refine ⟨List.insertionSort (· ≤ ·)
    (query_object.inspector.geometryIds.map query_object.inspector.getFrameId).dedup,
    List.sorted_insertionSort _ _, ?_, ?_, rfl⟩
  · exact ((List.perm_insertionSort _ _).nodup_iff).mpr (List.nodup_dedup _)
  · intro f
    rw [(List.perm_insertionSort _ _).mem_iff, List.mem_dedup]
    exact List.mem_map

/-- Mapping an injective-on-the-list function preserves the number of
distinct elements. -/
theorem dedup_length_map_of_injOn {α β : Type} [DecidableEq α] [DecidableEq β]
    (f : α → β) (l : List α) (hf : Set.InjOn f {x | x ∈ l}) :
    ((l.map f).dedup).length = l.dedup.length := by
  have hnd : (l.dedup.map f).Nodup :=
    List.Nodup.map_on
      (fun x hx y hy hxy => hf (List.mem_dedup.mp hx) (List.mem_dedup.mp hy) hxy)
      (List.nodup_dedup l)
  have hperm : (l.map f).dedup.Perm (l.dedup.map f) := by
    rw [List.perm_ext_iff_of_nodup (List.nodup_dedup _) hnd]
    intro b
    rw [List.mem_dedup, List.mem_map, List.mem_map]
    constructor
    · rintro ⟨a, ha, rfl⟩
      exact ⟨a, List.mem_dedup.mpr ha, rfl⟩
    · rintro ⟨a, ha, rfl⟩
      exact ⟨a, List.mem_dedup.mp ha, rfl⟩
  rw [hperm.length_eq, List.length_map]

/-- C5: `sanity_check_query_object` fails (the `DuplicateNameError`
assertion fires) exactly when the count of distinct frame ids differs from
the count of distinct frame names, or the count of distinct geometry ids
differs from the count of distinct geometry names; and it passes on every
snapshot whose frame names and geometry names are unique (injective). -/
theorem sanity_check_query_object_spec (query_object : QueryObject) :
    (sanity_check_query_object query_object = false ↔
      ((query_object.inspector.geometryIds.map
          query_object.inspector.getFrameId).dedup.length ≠
        (query_object.inspector.geometryIds.map (fun g =>
          query_object.inspector.getNameFrame
            (query_object.inspector.getFrameId g))).dedup.length ∨
       query_object.inspector.geometryIds.dedup.length ≠
        (query_object.inspector.geometryIds.map
          query_object.inspector.getNameGeometry).dedup.length)) ∧
    ((Set.InjOn query_object.inspector.getNameFrame
        {f | ∃ g ∈ query_object.inspector.geometryIds,
          query_object.inspector.getFrameId g = f} ∧
      Set.InjOn query_object.inspector.getNameGeometry
        {g | g ∈ query_object.inspector.geometryIds}) →
      sanity_check_query_object query_object = true) := by
  constructor
  · rw [← Bool.not_eq_true]
    simp only [sanity_check_query_object, Bool.and_eq_true, beq_iff_eq, not_and_or]
  · rintro ⟨hframe, hgeom⟩
    simp only [sanity_check_query_object, Bool.and_eq_true, beq_iff_eq]
    constructor
    · have hset : {f | f ∈ query_object.inspector.geometryIds.map
          query_object.inspector.getFrameId} ⊆
          {f | ∃ g ∈ query_object.inspector.geometryIds,
            query_object.inspector.getFrameId g = f} := by
        intro f hf
        exact List.mem_map.mp hf
      have hlen := dedup_length_map_of_injOn query_object.inspector.getNameFrame
        (query_object.inspector.geometryIds.map query_object.inspector.getFrameId)
        (hframe.mono hset)
      rw [List.map_map, Function.comp_def] at hlen
      exact hlen.symm
    · exact (dedup_length_map_of_injOn query_object.inspector.getNameGeometry
        query_object.inspector.geometryIds hgeom).symm

end RosGeometry
